import Mathlib

/-!
Verification of the react-storefront service worker
(`src/service-worker/service-worker.js`) against its specification.

The file is shallowly embedded: every definition below mirrors a function,
expression or event listener of the JavaScript source.  External collaborators
that the worker imports from modules not present in the repository snapshot
(`./prefetch`, `./cache`, `./environment`, `./offline`) are either modelled
from the spec (marked as such in their doc comments) or kept abstract as
fields of an `Env` record.  Machine-level platform services (the network, the
Cache Storage backend) are likewise abstract: the network is a function from a
request context to an optional response (`none` = network failure), and cache
storage is an association list keyed by cache name and request path.
-/

namespace SW

/-! ## Generic string helpers (used to embed the regular expressions) -/

/-- `leadsWith pat l` is true when the character list `pat` is an initial
segment of `l` (the beginning of a regex match attempt at this position). -/
def leadsWith : List Char → List Char → Bool
  | [], _ => true
  | _ :: _, [] => false
  | a :: as, b :: bs => a == b && leadsWith as bs

/-- `hasSub pat l` is true when `pat` occurs contiguously inside `l`. -/
def hasSub (pat : List Char) : List Char → Bool
  | [] => pat.isEmpty
  | c :: rest => leadsWith pat (c :: rest) || hasSub pat rest

/-- `containsStr s pat` is true when `pat` occurs contiguously inside `s`. -/
def containsStr (s pat : String) : Bool :=
  hasSub pat.data s.data

/-! ## Data model -/

/-- A parsed URL, with the fields the worker reads (`url.protocol`,
`url.hostname`, `url.pathname`, `url.search`). -/
structure Url where
  protocol : String
  hostname : String
  pathname : String
  search : String
deriving DecidableEq, Repr

/-- The fields of a fetch-event request that the worker reads:
`request.headers`, `request.cache` (the cache mode) and `request.mode`. -/
structure Request where
  headers : List (String × String)
  cache : String
  mode : String
deriving DecidableEq, Repr

/-- The route-handler context `{ url, event }`; `event.request` is flattened
into the `request` field since the worker reads nothing else from the event. -/
structure Context where
  url : Url
  request : Request
deriving DecidableEq, Repr

/-- A response: its body bytes (modelled as a string) and its headers. -/
structure Response where
  body : String
  headers : List (String × String)
deriving DecidableEq, Repr

/-- `Response.clone()` yields a copy carrying byte-identical body and headers;
responses are immutable values here, so the copy is the value itself. -/
def Response.clone (r : Response) : Response := r

/-- `headers.get(k)`: the value of the first header named `k`, or `null`. -/
def headersGet (hs : List (String × String)) (k : String) : Option String :=
  (hs.find? (fun e => e.1 == k)).map (fun e => e.2)

/-- JavaScript truthiness of a nullable string: `null`, `undefined` and the
empty string are falsy; every other string is truthy. -/
def truthyStr : Option String → Bool
  | none => false
  | some s => s != ""

/-! ## Cache storage (platform collaborator)

The Cache Storage backend is modelled as an association list from
(cache name, request path) to the stored response.  `cache.put(path, res)`
prepends an entry (an idempotent overwrite under lookup); a lookup returns the
most recent entry for the key.  The ExpirationPlugin (TTL / maxEntries
eviction) is an external collaborator enforced at write time and is not part
of the lookup model. -/

abbrev CacheStorage := List ((String × String) × Response)

/-- Lookup of the response stored under `path` in the cache named `cacheName`. -/
def cacheMatch (cs : CacheStorage) (cacheName path : String) : Option Response :=
  (cs.find? (fun e => e.1.1 == cacheName && e.1.2 == path)).map (fun e => e.2)

/-- `cache.put(path, r)` on the cache named `cacheName`. -/
def cachePut (cs : CacheStorage) (cacheName path : String) (r : Response) : CacheStorage :=
  ((cacheName, path), r) :: cs

/-! ## Collaborators imported from modules outside the snapshot -/

/-- Modelled from the spec: `getAPICacheName` is imported from './cache',
which is not under src/.  Per the spec (§4.1, Cache Namer) it is a pure,
total, deterministic map from an API-version token to a stable cache
identifier; an absent version yields a fixed default name that collides with
no versioned name. -/
def getAPICacheName : Option String → String
  | none => "runtime"
  | some v => "runtime-" ++ v

/-- Modelled from the spec: the function `prefetch` is imported from
'./prefetch', which is not under src/.  Per the spec (§4.4, §8) an enqueue
records the given path once per session: enqueueing a path already recorded
is a no-op, so repeated AMP visits produce no duplicate enqueues. -/
def prefetch (path : String) (_isPage : Bool) (prefetched : List String) : List String :=
  if path ∈ prefetched then prefetched else path :: prefetched

/-- Modelled from the spec: `IS_AMP_REGEX` is imported from './environment',
which is not under src/.  Per the spec (§4.3 rule 1, §8) it is the AMP
query-parameter pattern, matching a search string that carries the `amp=1`
query parameter (e.g. `?amp=1`). -/
def ampRegexMatches (s : String) : Bool :=
  containsStr s "amp=1"

/-! ## Request classifier (lines 115-157 of the source) -/

/-- `isSecure(context)`: the URL uses https, or the host is localhost. -/
def isSecure (context : Context) : Bool :=
  context.url.protocol == "https:" || context.url.hostname == "localhost"

/-- `isStaticAsset(context)`: the path falls under `/_next/static/`. -/
def isStaticAsset (context : Context) : Bool :=
  context.url.pathname.startsWith "/_next/static/"

/-- `isAmp(url)`: `!!(url.search || '').match(IS_AMP_REGEX)`. -/
def isAmp (url : Url) : Bool :=
  ampRegexMatches url.search

/-- The regular expression `\.mp4(\?.*)?$` applied to a string: the string
ends with `.mp4`, or contains `.mp4?` (after which `.*$` matches the rest). -/
def mp4RegexMatches (s : String) : Bool :=
  s.endsWith ".mp4" || hasSub (String.data ".mp4?") s.data

/-- `isVideo(context)`: `context.url.pathname.match(/\.mp4(\?.*)?$/)`. -/
def isVideo (context : Context) : Bool :=
  mp4RegexMatches context.url.pathname

/-- `matchRuntimePath`: secure, not a static asset, and not a video. -/
def matchRuntimePath (context : Context) : Bool :=
  isSecure context && !isStaticAsset context && !isVideo context

/-! ## The Fetch Arbiter (the handler registered at line 159 of the source)

The worker's external collaborators are an `Env` record:
  * `net` — the network (`new NetworkOnly().handle(context)` performs a plain
    network fetch); `none` means the fetch fails and the strategy rejects;
  * `prefetchImpl` — the imported `prefetch` collaborator; it may raise
    (`Except.error`), which models an internal exception inside the handler
    body (the only call in the synchronous body that can throw);
  * `offline` — `offlineResponse(apiVersion, context)` from './offline',
    whose contract (spec §6) is a total function to a `Response`.

The mutable world the handler can touch is `SWState`: the Cache Storage
contents and the prefetch module's session record of enqueued paths. -/

structure Env where
  net : Context → Option Response
  prefetchImpl : String → Bool → List String → Except Unit (List String)
  offline : String → Context → Response

structure SWState where
  cacheStorage : CacheStorage
  prefetched : List String
deriving DecidableEq, Repr

/-- What the handler's returned promise does. -/
inductive Outcome where
  /-- Resolves with a response. -/
  | response (r : Response)
  /-- Resolves with `undefined` (the cache-only cross-origin bypass). -/
  | noResponse
  /-- Rejects (a plain network fetch that failed, with no further catch). -/
  | rejected
deriving DecidableEq, Repr

/-- `new NetworkOnly().handle(context)`: a direct network pass-through; the
returned promise rejects when the network fetch fails. -/
def networkOnlyHandle (env : Env) (ctx : Context) : Outcome :=
  match env.net ctx with
  | some r => Outcome.response r
  | none => Outcome.rejected

/-- Lines 163-165: `if (isAmp(url)) prefetch({ path: url.pathname + url.search }, true)`.
The prefetch collaborator may throw, which propagates out of this step. -/
def ampPrefetchStep (env : Env) (ctx : Context) (st : SWState) : Except Unit SWState :=
  if isAmp ctx.url then
    match env.prefetchImpl (ctx.url.pathname ++ ctx.url.search) true st.prefetched with
    | Except.ok pf => Except.ok { st with prefetched := pf }
    | Except.error e => Except.error e
  else
    Except.ok st

/-- Lines 180-200: `new CacheOnly(cacheOptions).handle(context)`, with a
`.catch` falling back to `new NetworkOnly().handle(context)` whose `.then`
opportunistically writes cacheable responses (`cache.put(url.pathname, apiRes)`)
and returns `apiRes.clone()`, and a final `.catch` producing
`offlineResponse(apiVersion, context)`. -/
def versionedChain (env : Env) (ctx : Context) (apiVersion cacheName : String)
    (st : SWState) : Outcome × SWState :=
  match cacheMatch st.cacheStorage cacheName ctx.url.pathname with
  | some cached => (Outcome.response cached, st)
  | none =>
    match env.net ctx with
    | some apiRes =>
      if truthyStr (headersGet apiRes.headers "x-sw-cache-control") then
        (Outcome.response apiRes.clone,
         { st with
            cacheStorage := cachePut st.cacheStorage cacheName ctx.url.pathname apiRes })
      else
        (Outcome.response apiRes.clone, st)
    | none => (Outcome.response (env.offline apiVersion ctx), st)

/-- Lines 167-200, after the AMP step: read the API-version header, compute
the cache name, apply the cache-only cross-origin bypass (lines 172-174),
delegate version-less requests to the network (lines 176-178), and otherwise
run the versioned cache/network/offline chain. -/
def arbiterDispatch (env : Env) (ctx : Context) (st : SWState) : Outcome × SWState :=
  let apiVersion := headersGet ctx.request.headers "x-rsf-api-version"
  let cacheName := getAPICacheName apiVersion
  if (ctx.request.cache == "only-if-cached" && ctx.request.mode != "same-origin") = true then
    (Outcome.noResponse, st)
  else if truthyStr apiVersion = false then
    (networkOnlyHandle env ctx, st)
  else
    versionedChain env ctx (apiVersion.getD "") cacheName st

/-- The body of the `try` block (lines 160-200). -/
def handlerBody (env : Env) (ctx : Context) (st : SWState) :
    Except Unit (Outcome × SWState) :=
  match ampPrefetchStep env ctx st with
  | Except.ok st1 => Except.ok (arbiterDispatch env ctx st1)
  | Except.error e => Except.error e

/-- The whole registered handler (lines 159-207): the body wrapped in
`try/catch`, the catch degrading to `new NetworkOnly().handle(context)`. -/
def handler (env : Env) (ctx : Context) (st : SWState) : Outcome × SWState :=
  match handlerBody env ctx st with
  | Except.ok r => r
  | Except.error _ => (networkOnlyHandle env ctx, st)

/-! ## The install-time cache sweep (lines 58-67 of the source) -/

/-- The two service-worker lifecycle events relevant to the sweep. -/
inductive LifecycleEvent where
  | install
  | activate
deriving DecidableEq, Repr

/-- The sweep body registered on the `install` event: every cache whose name
does not start with `workbox-precache` is deleted; the result is the list of
surviving cache names. -/
def installCacheSweep (keys : List String) : List String :=
  keys.filter (fun key => key.startsWith "workbox-precache")

/-- Effect of dispatching a lifecycle event on the set of cache names.  The
source registers a listener only for `install` (line 58); it registers no
`activate` listener of its own, so an `activate` dispatch leaves the caches
untouched. -/
def lifecycleSweep : LifecycleEvent → List String → List String
  | LifecycleEvent.install, keys => installCacheSweep keys
  | LifecycleEvent.activate, keys => keys

/-! ## The Control Channel message listener (lines 40-56 of the source) -/

/-- A posted message's data object, as far as the listener reads it: the
`action` discriminant and the `path` payload used by `cache-path`. -/
structure MessageData where
  action : Option String
  path : Option String
deriving DecidableEq, Repr

/-- The operation a message dispatch performs (the effects themselves live in
external collaborator modules). -/
inductive ControlEffect where
  | noop
  | enqueuePrefetch
  | replicateCacheState
  | configureCaching
  | abortPrefetches
  | resumePrefetches
deriving DecidableEq, Repr

/-- A JavaScript error surfaced by a dispatch. -/
inductive SWError where
  | referenceError (name : String)
deriving DecidableEq, Repr

/-- The identifiers bound in the module scope of
`src/service-worker/service-worker.js`: the named imports of lines 1-9 and
the top-level declarations of the file itself.  Evaluating a free identifier
resolves against this scope; an identifier not in it throws a
`ReferenceError`. -/
def moduleScopeIdentifiers : List String :=
  ["ExpirationPlugin", "registerRoute", "CacheOnly", "NetworkOnly", "NetworkFirst",
   "skipWaiting", "clientsClaim", "precacheAndRoute", "getCacheKeyForURL",
   "IS_AMP_REGEX", "resumePrefetches", "abortPrefetches", "prefetch",
   "offlineResponse", "getAPICacheName", "runtimeCacheOptions",
   "configureRuntimeCaching", "isSecure", "isStaticAsset", "isAmp", "isVideo",
   "matchRuntimePath"]

/-- Dispatch on a truthy `action` string (lines 44-54).  The `cache-state`
branch evaluates the identifier `cacheState`, which resolves in module scope
or throws a `ReferenceError`. -/
def dispatchAction (a : String) : Except SWError ControlEffect :=
  if a == "cache-path" then Except.ok ControlEffect.enqueuePrefetch
  else if a == "cache-state" then
    if "cacheState" ∈ moduleScopeIdentifiers then Except.ok ControlEffect.replicateCacheState
    else Except.error (SWError.referenceError "cacheState")
  else if a == "configure-runtime-caching" then Except.ok ControlEffect.configureCaching
  else if a == "abort-prefetches" then Except.ok ControlEffect.abortPrefetches
  else if a == "resume-prefetches" then Except.ok ControlEffect.resumePrefetches
  else Except.ok ControlEffect.noop

/-- The message listener (lines 40-56): `if (event.data && event.data.action)`
guards the dispatch; absent data or a falsy action means no operation. -/
def handleMessage : Option MessageData → Except SWError ControlEffect
  | none => Except.ok ControlEffect.noop
  | some d =>
    match d.action with
    | none => Except.ok ControlEffect.noop
    | some a => if a == "" then Except.ok ControlEffect.noop else dispatchAction a

/-! ## Helper lemmas -/

theorem leadsWith_mem {pat l : List Char} (h : leadsWith pat l = true)
    {c : Char} (hc : c ∈ pat) : c ∈ l := by
  induction pat generalizing l with
  | nil => cases hc
  | cons a as ih =>
    cases l with
    | nil => simp [leadsWith] at h
    | cons b bs =>
      simp only [leadsWith, Bool.and_eq_true, beq_iff_eq] at h
      obtain ⟨rfl, hrest⟩ := h
      rcases List.mem_cons.mp hc with rfl | hmem
      · exact List.mem_cons_self _ _
      · exact List.mem_cons_of_mem _ (ih hrest hmem)

theorem hasSub_mem {pat l : List Char} (h : hasSub pat l = true)
    {c : Char} (hc : c ∈ pat) : c ∈ l := by
  induction l with
  | nil =>
    simp only [hasSub, List.isEmpty_iff] at h
    subst h
    cases hc
  | cons b bs ih =>
    simp only [hasSub, Bool.or_eq_true] at h
    rcases h with h | h
    · exact leadsWith_mem h hc
    · exact List.mem_cons_of_mem _ (ih h)

theorem cacheMatch_put_same (cs : CacheStorage) (n p : String) (r : Response) :
    cacheMatch (cachePut cs n p r) n p = some r := by
  simp [cacheMatch, cachePut, List.find?]

theorem truthyStr_some {v : String} (h : v ≠ "") : truthyStr (some v) = true := by
  simp [truthyStr, h]

/-- If the prefetch collaborator succeeds, the AMP step succeeds and leaves
the cache storage untouched. -/
theorem ampPrefetchStep_ok (env : Env) (ctx : Context) (st : SWState)
    (hpre : ∀ p b s, ∃ t, env.prefetchImpl p b s = Except.ok t) :
    ∃ st1, ampPrefetchStep env ctx st = Except.ok st1
      ∧ st1.cacheStorage = st.cacheStorage := by
  unfold ampPrefetchStep
  by_cases ha : isAmp ctx.url
  · obtain ⟨t, ht⟩ := hpre (ctx.url.pathname ++ ctx.url.search) true st.prefetched
    rw [if_pos ha, ht]
    exact ⟨_, rfl, rfl⟩
  · rw [if_neg ha]
    exact ⟨st, rfl, rfl⟩

/-- A successful AMP step turns the handler into the pure dispatch. -/
theorem handler_eq_dispatch (env : Env) (ctx : Context) (st st1 : SWState)
    (h : ampPrefetchStep env ctx st = Except.ok st1) :
    handler env ctx st = arbiterDispatch env ctx st1 := by
  unfold handler handlerBody
  rw [h]

/-- The dispatch never touches the prefetch module's session record. -/
theorem arbiterDispatch_prefetched (env : Env) (ctx : Context) (st : SWState) :
    (arbiterDispatch env ctx st).2.prefetched = st.prefetched := by
  unfold arbiterDispatch versionedChain
  dsimp only
  split
  · rfl
  · split
    · rfl
    · split
      · rfl
      · split
        · split
          · rfl
          · rfl
        · rfl

/-- Enqueueing the same path twice in a session is the same as once. -/
theorem prefetch_idem (p : String) (b1 b2 : Bool) (s : List String) :
    prefetch p b1 (prefetch p b2 s) = prefetch p b2 s := by
  unfold prefetch
  by_cases h : p ∈ s
  · simp [h]
  · simp [h]

/-- With a non-falsy version header and a request outside the cache-only
cross-origin bypass, the dispatch is the versioned chain. -/
theorem arbiterDispatch_versioned (env : Env) (ctx : Context) (st : SWState)
    (v : String)
    (hv : headersGet ctx.request.headers "x-rsf-api-version" = some v)
    (hvne : v ≠ "")
    (hb : (ctx.request.cache == "only-if-cached" && ctx.request.mode != "same-origin") = false) :
    arbiterDispatch env ctx st = versionedChain env ctx v (getAPICacheName (some v)) st := by
  unfold arbiterDispatch
  rw [hv]
  dsimp only
  rw [hb]
  simp [truthyStr_some hvne]

/-! ## Concrete fixtures used by witnesses and counterexamples -/

/-- A prefetch collaborator that never throws and behaves as the spec-modelled
`prefetch`. -/
def okPrefetchImpl : String → Bool → List String → Except Unit (List String) :=
  fun p isPage s => Except.ok (prefetch p isPage s)

/-- A prefetch collaborator that raises an internal exception on every call. -/
def failPrefetchImpl : String → Bool → List String → Except Unit (List String) :=
  fun _ _ _ => Except.error ()

def respNet : Response := ⟨"NET-BODY", []⟩

def respCacheable : Response := ⟨"PAYLOAD", [("x-sw-cache-control", "cache")]⟩

def respCached : Response := ⟨"CACHED", []⟩

def offlineFn : String → Context → Response :=
  fun v _ => ⟨"OFFLINE-" ++ v, []⟩

def stEmpty : SWState := ⟨[], []⟩

def ctxAmp : Context :=
  ⟨⟨"https:", "example.com", "/foo", "?amp=1"⟩, ⟨[], "default", "navigate"⟩⟩

def ctxPlain : Context :=
  ⟨⟨"https:", "example.com", "/page", ""⟩, ⟨[], "default", "navigate"⟩⟩

def ctxV7 : Context :=
  ⟨⟨"https:", "example.com", "/api/products", ""⟩,
   ⟨[("x-rsf-api-version", "7")], "default", "cors"⟩⟩

def ctxHitV1 : Context :=
  ⟨⟨"https:", "example.com", "/p", ""⟩,
   ⟨[("x-rsf-api-version", "v1")], "default", "cors"⟩⟩

def ctxOnlyIfCachedV1 : Context :=
  ⟨⟨"https:", "example.com", "/p", ""⟩,
   ⟨[("x-rsf-api-version", "v1")], "only-if-cached", "cors"⟩⟩

def stWithV1 : SWState := ⟨[(("runtime-v1", "/p"), respCached)], []⟩

def envNet : Env := ⟨fun _ => some respNet, okPrefetchImpl, offlineFn⟩

def envCacheable : Env := ⟨fun _ => some respCacheable, okPrefetchImpl, offlineFn⟩

def envFailNet : Env := ⟨fun _ => none, okPrefetchImpl, offlineFn⟩

def envThrowingPrefetch : Env := ⟨fun _ => some respNet, failPrefetchImpl, offlineFn⟩

/-! ## Claims -/

/-- C1: for every intercepted request, any internal exception raised inside
the Fetch Arbiter's handler body is caught at the top level and the handler's
result degrades to a plain direct network pass-through
(`new NetworkOnly().handle(context)`), with the state untouched — the
worst-case observable behaviour is as if no interception layer existed, and
the handler itself never throws past its boundary (it is a total function
into `Outcome × SWState`). -/
theorem arbiter_catches_internal_errors (env : Env) (ctx : Context) (st : SWState)
    (h : handlerBody env ctx st = Except.error ()) :
    handler env ctx st = (networkOnlyHandle env ctx, st) := by
  unfold handler
  rw [h]

theorem arbiter_catches_internal_errors_witness :
    handler envThrowingPrefetch ctxAmp stEmpty
      = (networkOnlyHandle envThrowingPrefetch ctxAmp, stEmpty) :=
  arbiter_catches_internal_errors envThrowingPrefetch ctxAmp stEmpty rfl

/-- C3: for every intercepted request whose `x-rsf-api-version` header is
absent, the Arbiter performs no cache lookup — the cache contents are left
untouched and play no part in the outcome — and delegates the request
directly to the network (`NetworkOnly`), except that a request in cache mode
`only-if-cached` whose mode is not `same-origin` gets no response, leaving
the platform's default handling to apply. -/
theorem no_version_goes_to_network (env : Env) (ctx : Context) (st : SWState)
    (hpre : ∀ p b s, ∃ t, env.prefetchImpl p b s = Except.ok t)
    (hv : headersGet ctx.request.headers "x-rsf-api-version" = none) :
    (handler env ctx st).1 =
      (if (ctx.request.cache == "only-if-cached" && ctx.request.mode != "same-origin") = true
       then Outcome.noResponse
       else networkOnlyHandle env ctx)
    ∧ (handler env ctx st).2.cacheStorage = st.cacheStorage := by
  obtain ⟨st1, h1, hcs⟩ := ampPrefetchStep_ok env ctx st hpre
  rw [handler_eq_dispatch env ctx st st1 h1]
  unfold arbiterDispatch
  rw [hv]
  dsimp only
  cases hb : (ctx.request.cache == "only-if-cached" && ctx.request.mode != "same-origin") with
  | true => simp [hb, hcs]
  | false => simp [hb, truthyStr, hcs]

theorem no_version_goes_to_network_witness :
    (handler envNet ctxPlain stEmpty).1 = networkOnlyHandle envNet ctxPlain
    ∧ (handler envNet ctxPlain stEmpty).2.cacheStorage = stEmpty.cacheStorage := by
  have h := no_version_goes_to_network envNet ctxPlain stEmpty
    (fun p b s => ⟨prefetch p b s, rfl⟩) rfl
  rwa [if_neg (by decide)] at h

/-- C4 counterexample: the claim says a request for `/foo?amp=1` enqueues a
prefetch for the canonical path `/foo`; the code passes
`url.pathname + url.search` to `prefetch`, so it enqueues `/foo?amp=1` and
never `/foo`. -/
theorem amp_prefetch_not_canonical_cex :
    (handler envNet ctxAmp stEmpty).2.prefetched = ["/foo?amp=1"]
    ∧ ¬("/foo" ∈ (handler envNet ctxAmp stEmpty).2.prefetched) := by
  refine ⟨rfl, ?_⟩
  decide

/-- C4 (amended): for every intercepted request whose search string matches
the AMP query-parameter pattern, the Arbiter schedules exactly one
non-blocking prefetch enqueue of the intercepted path itself
(`url.pathname + url.search`, the AMP parameter included) before continuing
to resolve the response, and — with the spec-modelled once-per-session
enqueue — repeated AMP visits in the same session do not produce duplicate
enqueues. -/
theorem amp_prefetch_enqueues_amp_path (env : Env) (ctx : Context) (st : SWState)
    (hpf : env.prefetchImpl = okPrefetchImpl)
    (hamp : isAmp ctx.url = true) :
    (handler env ctx st).2.prefetched
      = prefetch (ctx.url.pathname ++ ctx.url.search) true st.prefetched
    ∧ prefetch (ctx.url.pathname ++ ctx.url.search) true
        (prefetch (ctx.url.pathname ++ ctx.url.search) true st.prefetched)
      = prefetch (ctx.url.pathname ++ ctx.url.search) true st.prefetched := by
  constructor
  · have hstep : ampPrefetchStep env ctx st = Except.ok
        { st with prefetched :=
            prefetch (ctx.url.pathname ++ ctx.url.search) true st.prefetched } := by
      unfold ampPrefetchStep
      rw [if_pos hamp, hpf]
      rfl
    rw [handler_eq_dispatch env ctx st _ hstep, arbiterDispatch_prefetched]
  · exact prefetch_idem _ _ _ _

theorem amp_prefetch_enqueues_amp_path_witness :
    (handler envNet ctxAmp stEmpty).2.prefetched
      = prefetch (ctxAmp.url.pathname ++ ctxAmp.url.search) true stEmpty.prefetched
    ∧ prefetch (ctxAmp.url.pathname ++ ctxAmp.url.search) true
        (prefetch (ctxAmp.url.pathname ++ ctxAmp.url.search) true stEmpty.prefetched)
      = prefetch (ctxAmp.url.pathname ++ ctxAmp.url.search) true stEmpty.prefetched :=
  amp_prefetch_enqueues_amp_path envNet ctxAmp stEmpty rfl (by decide)

/-- C5 counterexample: the claim says the cache-only cross-origin bypass does
not preempt the versioned lookup; in the code the bypass (lines 172-174) runs
before the version check and the lookup, so a version-bearing
`only-if-cached` cross-origin request gets no response even though the
versioned cache holds a response the lookup would have returned. -/
theorem bypass_preempts_versioned_lookup_cex :
    cacheMatch stWithV1.cacheStorage (getAPICacheName (some "v1"))
      ctxOnlyIfCachedV1.url.pathname = some respCached
    ∧ handler envNet ctxOnlyIfCachedV1 stWithV1 = (Outcome.noResponse, stWithV1)
    ∧ Outcome.noResponse ≠ Outcome.response respCached := by
  refine ⟨rfl, rfl, ?_⟩
  decide

/-- C5 (amended): for every intercepted request whose `x-rsf-api-version`
header is present (non-falsy) and which does not match the cache-only
cross-origin bypass — which does preempt the lookup — the Arbiter looks up
the CacheGeneration selected by that version, and a cache hit returns the
stored response immediately, leaving the cache contents untouched (no
freshness check is performed beyond the TTL/maxEntries policy the eviction
plugin enforces at write time). -/
theorem versioned_cache_hit (env : Env) (ctx : Context) (st : SWState)
    (v : String) (cached : Response)
    (hpre : ∀ p b s, ∃ t, env.prefetchImpl p b s = Except.ok t)
    (hv : headersGet ctx.request.headers "x-rsf-api-version" = some v)
    (hvne : v ≠ "")
    (hb : (ctx.request.cache == "only-if-cached" && ctx.request.mode != "same-origin") = false)
    (hhit : cacheMatch st.cacheStorage (getAPICacheName (some v)) ctx.url.pathname
      = some cached) :
    (handler env ctx st).1 = Outcome.response cached
    ∧ (handler env ctx st).2.cacheStorage = st.cacheStorage := by
  obtain ⟨st1, h1, hcs1⟩ := ampPrefetchStep_ok env ctx st hpre
  rw [handler_eq_dispatch env ctx st st1 h1,
      arbiterDispatch_versioned env ctx st1 v hv hvne hb]
  simp [versionedChain, hcs1, hhit]

theorem versioned_cache_hit_witness :
    (handler envNet ctxHitV1 stWithV1).1 = Outcome.response respCached
    ∧ (handler envNet ctxHitV1 stWithV1).2.cacheStorage = stWithV1.cacheStorage :=
  versioned_cache_hit envNet ctxHitV1 stWithV1 "v1" respCached
    (fun p b s => ⟨prefetch p b s, rfl⟩) rfl (by decide) rfl rfl

/-- C2: round-trip through the versioned cache.  For a request carrying
API-version `v` for path `p` whose lookup misses, if the network response
carries the cacheable signal header `x-sw-cache-control`, it is written to
the CacheGeneration for `v` under `p` while the caller receives a cloned,
byte-identical response (the write is fire-and-forget: the returned response
is already determined before the write lands); a subsequent Arbiter lookup
for the same `p` and `v` returns the stored response verbatim, with a
byte-identical body. -/
theorem versioned_cache_round_trip
    (env : Env) (ctx1 ctx2 : Context) (st : SWState) (v : String) (apiRes : Response)
    (hpre : ∀ p b s, ∃ t, env.prefetchImpl p b s = Except.ok t)
    (hv1 : headersGet ctx1.request.headers "x-rsf-api-version" = some v)
    (hv2 : headersGet ctx2.request.headers "x-rsf-api-version" = some v)
    (hvne : v ≠ "")
    (hb1 : (ctx1.request.cache == "only-if-cached" && ctx1.request.mode != "same-origin") = false)
    (hb2 : (ctx2.request.cache == "only-if-cached" && ctx2.request.mode != "same-origin") = false)
    (hmiss : cacheMatch st.cacheStorage (getAPICacheName (some v)) ctx1.url.pathname = none)
    (hnet : env.net ctx1 = some apiRes)
    (hcc : truthyStr (headersGet apiRes.headers "x-sw-cache-control") = true)
    (hpath : ctx2.url.pathname = ctx1.url.pathname) :
    (handler env ctx1 st).1 = Outcome.response apiRes.clone
    ∧ apiRes.clone = apiRes
    ∧ cacheMatch (handler env ctx1 st).2.cacheStorage (getAPICacheName (some v))
        ctx1.url.pathname = some apiRes
    ∧ (handler env ctx2 (handler env ctx1 st).2).1 = Outcome.response apiRes := by
  obtain ⟨st1, h1, hcs1⟩ := ampPrefetchStep_ok env ctx1 st hpre
  have hfirst : handler env ctx1 st =
      (Outcome.response apiRes.clone,
       { st1 with cacheStorage :=
          cachePut st.cacheStorage (getAPICacheName (some v)) ctx1.url.pathname apiRes }) := by
    rw [handler_eq_dispatch env ctx1 st st1 h1,
        arbiterDispatch_versioned env ctx1 st1 v hv1 hvne hb1]
    simp [versionedChain, hcs1, hmiss, hnet, hcc]
  refine ⟨by rw [hfirst], rfl, ?_, ?_⟩
  · rw [hfirst]
    exact cacheMatch_put_same st.cacheStorage (getAPICacheName (some v))
      ctx1.url.pathname apiRes
  · obtain ⟨st3, h3, hcs3⟩ := ampPrefetchStep_ok env ctx2 (handler env ctx1 st).2 hpre
    rw [handler_eq_dispatch env ctx2 (handler env ctx1 st).2 st3 h3,
        arbiterDispatch_versioned env ctx2 st3 v hv2 hvne hb2]
    have hlook : cacheMatch st3.cacheStorage (getAPICacheName (some v)) ctx2.url.pathname
        = some apiRes := by
      rw [hcs3, hfirst, hpath]
      exact cacheMatch_put_same st.cacheStorage (getAPICacheName (some v))
        ctx1.url.pathname apiRes
    simp [versionedChain, hlook]

theorem versioned_cache_round_trip_witness :
    (handler envCacheable ctxV7 stEmpty).1 = Outcome.response respCacheable.clone
    ∧ respCacheable.clone = respCacheable
    ∧ cacheMatch (handler envCacheable ctxV7 stEmpty).2.cacheStorage
        (getAPICacheName (some "7")) ctxV7.url.pathname = some respCacheable
    ∧ (handler envCacheable ctxV7 (handler envCacheable ctxV7 stEmpty).2).1
        = Outcome.response respCacheable :=
  versioned_cache_round_trip envCacheable ctxV7 ctxV7 stEmpty "7" respCacheable
    (fun p b s => ⟨prefetch p b s, rfl⟩) rfl rfl (by decide) rfl rfl rfl rfl rfl rfl

/-- C6 counterexample: the claim places the cache sweep at activation, but
the source registers it on the `install` event (line 58) and registers no
`activate` listener of its own; dispatching `activate` deletes nothing — a
stale runtime cache survives it and is only deleted by `install`. -/
theorem reaper_at_install_not_activation_cex :
    lifecycleSweep LifecycleEvent.activate ["runtime-v1"] = ["runtime-v1"]
    ∧ lifecycleSweep LifecycleEvent.activate ["runtime-v1"] ≠ []
    ∧ lifecycleSweep LifecycleEvent.install ["runtime-v1"] = [] := by
  decide

/-- C6 (amended): at install (not activation), the Cache Generation Reaper
enumerates all existing cache names and deletes every cache whose name does
not carry the precache tag (the `workbox-precache` name prefix),
unconditionally; the current precache cache itself carries the tag and so
survives the sweep. -/
theorem install_sweep_keeps_precache_only (keys : List String) (key : String) :
    key ∈ lifecycleSweep LifecycleEvent.install keys
      ↔ key ∈ keys ∧ key.startsWith "workbox-precache" = true := by
  simp [lifecycleSweep, installCacheSweep, List.mem_filter]

/-- C7: for every version-bearing intercepted request (outside the cache-only
cross-origin bypass) whose cache lookup misses and whose network request
fails, the Arbiter's terminal result is the offline fallback response
produced by the `offlineResponse` collaborator keyed by the request's API
version — a resolved response, never an unhandled rejection. -/
theorem network_failure_offline_fallback (env : Env) (ctx : Context) (st : SWState)
    (v : String)
    (hpre : ∀ p b s, ∃ t, env.prefetchImpl p b s = Except.ok t)
    (hv : headersGet ctx.request.headers "x-rsf-api-version" = some v)
    (hvne : v ≠ "")
    (hb : (ctx.request.cache == "only-if-cached" && ctx.request.mode != "same-origin") = false)
    (hmiss : cacheMatch st.cacheStorage (getAPICacheName (some v)) ctx.url.pathname = none)
    (hnet : env.net ctx = none) :
    (handler env ctx st).1 = Outcome.response (env.offline v ctx) := by
  obtain ⟨st1, h1, hcs1⟩ := ampPrefetchStep_ok env ctx st hpre
  rw [handler_eq_dispatch env ctx st st1 h1,
      arbiterDispatch_versioned env ctx st1 v hv hvne hb]
  simp [versionedChain, hcs1, hmiss, hnet]

theorem network_failure_offline_fallback_witness :
    (handler envFailNet ctxV7 stEmpty).1 = Outcome.response (envFailNet.offline "7" ctxV7) :=
  network_failure_offline_fallback envFailNet ctxV7 stEmpty "7"
    (fun p b s => ⟨prefetch p b s, rfl⟩) rfl (by decide) rfl rfl rfl

/-- C8: the Request Classifier is the conjunction of three pure predicates —
for any request path free of the character `?` (a URL pathname never contains
it), a request is interceptable exactly when its origin is secure (https
scheme or localhost host) and its path does not fall under `/_next/static/`
and its path does not end in `.mp4`; and the classifier reads only the URL,
so any API-version header (indeed the whole request object) is irrelevant to
it. -/
theorem classifier_iff (ctx : Context) (req : Request)
    (hq : ('?') ∉ ctx.url.pathname.data) :
    (matchRuntimePath ctx = true ↔
      ((ctx.url.protocol = "https:" ∨ ctx.url.hostname = "localhost")
       ∧ ¬ctx.url.pathname.startsWith "/_next/static/" = true
       ∧ ¬ctx.url.pathname.endsWith ".mp4" = true))
    ∧ matchRuntimePath ⟨ctx.url, req⟩ = matchRuntimePath ctx := by
  have hsub : hasSub (String.data ".mp4?") ctx.url.pathname.data = false := by
    cases h : hasSub (String.data ".mp4?") ctx.url.pathname.data
    · rfl
    · exact absurd (hasSub_mem h (by decide)) hq
  constructor
  · simp [matchRuntimePath, isSecure, isStaticAsset, isVideo, mp4RegexMatches, hsub,
      and_assoc]
  · rfl

theorem classifier_iff_witness :
    (matchRuntimePath ctxPlain = true ↔
      ((ctxPlain.url.protocol = "https:" ∨ ctxPlain.url.hostname = "localhost")
       ∧ ¬ctxPlain.url.pathname.startsWith "/_next/static/" = true
       ∧ ¬ctxPlain.url.pathname.endsWith ".mp4" = true))
    ∧ matchRuntimePath ⟨ctxPlain.url, ctxV7.request⟩ = matchRuntimePath ctxPlain :=
  classifier_iff ctxPlain ctxV7.request (by decide)

/-- The five action strings the message listener recognizes. -/
def recognizedActions : List String :=
  ["cache-path", "cache-state", "configure-runtime-caching",
   "abort-prefetches", "resume-prefetches"]

/-- C9: for every Control Channel message whose data is absent, lacks an
action field, or carries an action other than the five recognized ones, the
message handler performs no operation and does not throw — unrecognized
message shapes are silently ignored. -/
theorem unrecognized_message_noop (d : Option MessageData)
    (h : d = none ∨ ∃ m, d = some m ∧
          (m.action = none ∨ ∀ a, m.action = some a → a ∉ recognizedActions)) :
    handleMessage d = Except.ok ControlEffect.noop := by
  rcases h with rfl | ⟨m, rfl, hm⟩
  · rfl
  · rcases hm with hnone | hact
    · simp [handleMessage, hnone]
    · cases hma : m.action with
      | none => simp [handleMessage, hma]
      | some a =>
        have ha := hact a hma
        simp only [recognizedActions, List.mem_cons, List.not_mem_nil, or_false,
          not_or] at ha
        obtain ⟨h1, h2, h3, h4, h5⟩ := ha
        by_cases he : a = ""
        · subst he
          simp [handleMessage, hma]
        · simp [handleMessage, dispatchAction, hma, h1, h2, h3, h4, h5, he]

theorem unrecognized_message_noop_witness :
    handleMessage (some ⟨some "unknown-action", none⟩) = Except.ok ControlEffect.noop :=
  unrecognized_message_noop (some ⟨some "unknown-action", none⟩)
    (Or.inr ⟨⟨some "unknown-action", none⟩, rfl,
      Or.inr (fun a ha => by injection ha with h; subst h; decide)⟩)

/-- C10: the identifier `cacheState` is neither defined nor imported anywhere
in the file (it is not in module scope), so handling a Control Channel
message whose action is `cache-state` — a recognized action — always throws
a `ReferenceError`, and the replicate-cache-state effect can never occur. -/
theorem cache_state_throws_reference_error (m : MessageData)
    (h : m.action = some "cache-state") :
    "cacheState" ∉ moduleScopeIdentifiers
    ∧ handleMessage (some m) = Except.error (SWError.referenceError "cacheState") := by
  refine ⟨by decide, ?_⟩
  have h2 : handleMessage (some m)
      = (if ("cache-state" : String) == "" then Except.ok ControlEffect.noop
         else dispatchAction "cache-state") := by
    simp only [handleMessage]
    rw [h]
  rw [h2]
  rfl

theorem cache_state_throws_reference_error_witness :
    "cacheState" ∉ moduleScopeIdentifiers
    ∧ handleMessage (some ⟨some "cache-state", none⟩)
        = Except.error (SWError.referenceError "cacheState") :=
  cache_state_throws_reference_error ⟨some "cache-state", none⟩ rfl

end SW

